import Mathlib

/-!
Verification of `network/deepv3_modify.py` (DeepLabV3+ model definitions).

The file is a declarative assembly of tensor operations, so we embed it at
the level PyTorch itself fixes: the shape semantics of each operation
(`nn.Conv2d`, `nn.AdaptiveAvgPool2d`, `Upsample`, `torch.cat`) and the
construction-time bookkeeping of the module constructors (argument
validation, dilation-rate configuration, submodule attribute rewriting,
checkpoint-load gating).  Backbone trunks (ResNet, SE-ResNeXt,
WideResNet38), `Norm2d`, weight initialisation and the loss criteria are
external collaborators; they appear as abstract shape functions or abstract
parameters, constrained only by the contracts the surrounding code relies
on.
-/

/-- The shape of a 4-dimensional tensor `(N, C, H, W)`. -/
structure Shape4 where
  n : Nat
  c : Nat
  h : Nat
  w : Nat
deriving DecidableEq, Repr

/-- Shape semantics of `nn.Conv2d(inC, outC, kernel_size=k, padding=p,
dilation=d, stride=s)`: the input must have `inC` channels and each padded
spatial extent must cover the dilated kernel; the output spatial size is
PyTorch's `(H + 2p - d*(k-1) - 1) / s + 1`. -/
def conv2d_shape (inC outC k p d s : Nat) (x : Shape4) : Option Shape4 :=
  if x.c = inC ∧ 0 < s ∧ d * (k - 1) + 1 ≤ x.h + 2 * p ∧ d * (k - 1) + 1 ≤ x.w + 2 * p then
    some ⟨x.n, outC, (x.h + 2 * p - (d * (k - 1) + 1)) / s + 1,
                     (x.w + 2 * p - (d * (k - 1) + 1)) / s + 1⟩
  else
    none

/-- Shape semantics of `nn.AdaptiveAvgPool2d(1)`: spatial size collapses to
`1 x 1`, batch and channels are kept. -/
def adaptive_avg_pool_1 (x : Shape4) : Shape4 :=
  ⟨x.n, x.c, 1, 1⟩

/-- Shape semantics of `Upsample(x, size)` (bilinear interpolation to a
target spatial size): spatial dimensions become the target, batch and
channels are kept. -/
def upsample_shape (h w : Nat) (x : Shape4) : Shape4 :=
  ⟨x.n, x.c, h, w⟩

/-- Shape semantics of `torch.cat((a, b), 1)`: channel counts add; all other
dimensions must agree. -/
def cat_channels (a b : Shape4) : Option Shape4 :=
  if a.n = b.n ∧ a.h = b.h ∧ a.w = b.w then
    some ⟨a.n, a.c + b.c, a.h, a.w⟩
  else
    none

/-- Every convolution in this file has stride 1 and `2p = d(k-1)`, which
preserves the spatial size whenever the input has at least one pixel. -/
lemma conv2d_shape_preserve (inC outC k p d : Nat) (x : Shape4)
    (hc : x.c = inC) (hpd : 2 * p = d * (k - 1)) (hh : 1 ≤ x.h) (hw : 1 ≤ x.w) :
    conv2d_shape inC outC k p d 1 x = some ⟨x.n, outC, x.h, x.w⟩ := by
  unfold conv2d_shape
  rw [if_pos ⟨hc, Nat.one_pos, by omega, by omega⟩]
  have h1 : (x.h + 2 * p - (d * (k - 1) + 1)) / 1 + 1 = x.h := by
    simp only [Nat.div_one]; omega
  have h2 : (x.w + 2 * p - (d * (k - 1) + 1)) / 1 + 1 = x.w := by
    simp only [Nat.div_one]; omega
  rw [h1, h2]

/-- The construction-time data of `_AtrousSpatialPyramidPoolingModule`: the
input channel count, the per-branch output channel count, and the dilation
rates of the 3x3 branches (after the `output_stride` adjustment). -/
structure ASPPModule where
  in_dim : Nat
  reduction_dim : Nat
  rates : List Nat
deriving DecidableEq, Repr

/-- `_AtrousSpatialPyramidPoolingModule.__init__` (lines 47-76): for
`output_stride == 8` every rate is doubled, for `output_stride == 16` the
rates are kept, and any other value raises (the Python `raise` of a plain
string itself raises a `TypeError`, so no module is constructed). -/
def aspp_init (inDim reductionDim outputStride : Nat) (rates : List Nat) :
    Except String ASPPModule :=
  if outputStride = 8 then
    .ok ⟨inDim, reductionDim, rates.map (fun r => 2 * r)⟩
  else if outputStride = 16 then
    .ok ⟨inDim, reductionDim, rates⟩
  else
    .error ("output stride of " ++ toString outputStride ++ " not supported")

/-- One 3x3 dilated branch of the ASPP module: `nn.Conv2d(in_dim,
reduction_dim, kernel_size=3, dilation=r, padding=r, bias=False)` followed by
shape-preserving `Norm2d` and `ReLU`. -/
def aspp_rate_branch (inDim reductionDim r : Nat) (x : Shape4) : Option Shape4 :=
  conv2d_shape inDim reductionDim 3 r r 1 x

/-- `_AtrousSpatialPyramidPoolingModule.forward` (lines 78-89): the
image-pooling branch (pool to 1x1, 1x1 conv, upsample back), then the 1x1
branch and one 3x3 dilated branch per rate, each concatenated onto the
running output along the channel dimension. -/
def aspp_forward_shape (m : ASPPModule) (x : Shape4) : Option Shape4 :=
  match conv2d_shape m.in_dim m.reduction_dim 1 0 1 1 (adaptive_avg_pool_1 x) with
  | none => none
  | some imgf =>
    let imgf := upsample_shape x.h x.w imgf
    match conv2d_shape m.in_dim m.reduction_dim 1 0 1 1 x with
    | none => none
    | some branch1 =>
      match cat_channels imgf branch1 with
      | none => none
      | some out0 =>
        m.rates.foldlM
          (fun acc r =>
            match aspp_rate_branch m.in_dim m.reduction_dim r x with
            | none => none
            | some y => cat_channels acc y)
          out0

/-- A 3x3 conv with `dilation = padding = r` and stride 1 preserves the
spatial size and retargets the channels, whenever the input has at least one
pixel and the right channel count. -/
lemma aspp_rate_branch_spec (inDim reductionDim r : Nat) (x : Shape4)
    (hc : x.c = inDim) (hh : 1 ≤ x.h) (hw : 1 ≤ x.w) :
    aspp_rate_branch inDim reductionDim r x = some ⟨x.n, reductionDim, x.h, x.w⟩ := by
  unfold aspp_rate_branch
  exact conv2d_shape_preserve inDim reductionDim 3 r r x hc (by omega) hh hw

/-- Folding the dilated branches over any rate list adds
`rates.length * reduction_dim` channels and keeps batch and spatial size. -/
lemma aspp_fold_spec (inDim reductionDim : Nat) (x : Shape4)
    (hc : x.c = inDim) (hh : 1 ≤ x.h) (hw : 1 ≤ x.w) :
    ∀ (rates : List Nat) (c : Nat),
      rates.foldlM
        (fun acc r =>
          match aspp_rate_branch inDim reductionDim r x with
          | none => none
          | some y => cat_channels acc y)
        (⟨x.n, c, x.h, x.w⟩ : Shape4)
      = some ⟨x.n, c + rates.length * reductionDim, x.h, x.w⟩ := by
  intro rates
  induction rates with
  | nil => intro c; simp [List.foldlM]
  | cons r rs ih =>
      intro c
      rw [List.foldlM_cons]
      rw [aspp_rate_branch_spec inDim reductionDim r x hc hh hw]
      have hcat : cat_channels ⟨x.n, c, x.h, x.w⟩ ⟨x.n, reductionDim, x.h, x.w⟩
          = some ⟨x.n, c + reductionDim, x.h, x.w⟩ := by
        unfold cat_channels
        simp
      simp only [hcat, Option.bind_eq_bind', Option.some_bind']
      rw [ih (c + reductionDim)]
      congr 2
      simp [List.length_cons]
      ring

/-- For an input with the module's channel count and at least one pixel, the
ASPP forward pass yields `(N, (2 + #rates) * reduction_dim, H, W)`. -/
lemma aspp_forward_shape_spec (m : ASPPModule) (x : Shape4)
    (hc : x.c = m.in_dim) (hh : 1 ≤ x.h) (hw : 1 ≤ x.w) :
    aspp_forward_shape m x
      = some ⟨x.n, (2 + m.rates.length) * m.reduction_dim, x.h, x.w⟩ := by
  unfold aspp_forward_shape
  have himg : conv2d_shape m.in_dim m.reduction_dim 1 0 1 1 (adaptive_avg_pool_1 x)
      = some ⟨x.n, m.reduction_dim, 1, 1⟩ := by
    exact conv2d_shape_preserve m.in_dim m.reduction_dim 1 0 1
      (adaptive_avg_pool_1 x) hc (by omega) (by simp [adaptive_avg_pool_1])
      (by simp [adaptive_avg_pool_1])
  have hbr1 : conv2d_shape m.in_dim m.reduction_dim 1 0 1 1 x
      = some ⟨x.n, m.reduction_dim, x.h, x.w⟩ :=
    conv2d_shape_preserve m.in_dim m.reduction_dim 1 0 1 x hc (by omega) hh hw
  rw [himg, hbr1]
  have hcat : cat_channels (upsample_shape x.h x.w ⟨x.n, m.reduction_dim, 1, 1⟩)
      ⟨x.n, m.reduction_dim, x.h, x.w⟩
      = some ⟨x.n, m.reduction_dim + m.reduction_dim, x.h, x.w⟩ := by
    unfold cat_channels upsample_shape
    simp
  simp only [hcat]
  rw [aspp_fold_spec m.in_dim m.reduction_dim x hc hh hw m.rates
    (m.reduction_dim + m.reduction_dim)]
  congr 2
  ring

/-- C4: `_AtrousSpatialPyramidPoolingModule.__init__` doubles every rate for
`output_stride = 8` (the defaults `(6, 12, 18)` become `(12, 24, 36)`), keeps
the rates for `output_stride = 16`, and raises for any other value. -/
theorem aspp_init_output_stride_cases (inDim reductionDim outputStride : Nat)
    (rates : List Nat) (hns : outputStride ≠ 8) (hns16 : outputStride ≠ 16) :
    aspp_init inDim reductionDim 8 rates
        = .ok ⟨inDim, reductionDim, rates.map (fun r => 2 * r)⟩ ∧
    aspp_init inDim reductionDim 8 [6, 12, 18]
        = .ok ⟨inDim, reductionDim, [12, 24, 36]⟩ ∧
    aspp_init inDim reductionDim 16 rates = .ok ⟨inDim, reductionDim, rates⟩ ∧
    ∃ msg, aspp_init inDim reductionDim outputStride rates = .error msg := by
  refine ⟨?_, ?_, ?_, ?_⟩
  · unfold aspp_init; simp
  · unfold aspp_init; simp
  · unfold aspp_init; simp
  · exact ⟨_, by unfold aspp_init; rw [if_neg hns, if_neg hns16]⟩

/-- Witness for C4 at `output_stride = 7`. -/
theorem aspp_init_output_stride_cases_witness :
    aspp_init 2048 256 8 [6, 12, 18] = .ok ⟨2048, 256, [12, 24, 36]⟩ ∧
    ∃ msg, aspp_init 2048 256 7 [6, 12, 18] = .error msg := by
  have h := aspp_init_output_stride_cases 2048 256 7 [6, 12, 18]
    (by decide) (by decide)
  exact ⟨h.2.1, h.2.2.2⟩

/-- C2: on an input of shape `(N, in_dim, H, W)` (with at least one pixel)
the ASPP forward returns `(N, (2 + #rates) * reduction_dim, H, W)`; with the
defaults used by every caller (`reduction_dim = 256`, three rates) that is
1280 channels, the in-channel count of the `bot_aspp` 1x1 convolution. -/
theorem aspp_forward_output_channels (m : ASPPModule) (x : Shape4)
    (hc : x.c = m.in_dim) (hh : 1 ≤ x.h) (hw : 1 ≤ x.w) :
    aspp_forward_shape m x
      = some ⟨x.n, (2 + m.rates.length) * m.reduction_dim, x.h, x.w⟩ ∧
    (m.reduction_dim = 256 → m.rates.length = 3 →
      aspp_forward_shape m x = some ⟨x.n, 1280, x.h, x.w⟩ ∧
      conv2d_shape 1280 256 1 0 1 1 ⟨x.n, 1280, x.h, x.w⟩
        = some ⟨x.n, 256, x.h, x.w⟩) := by
  have hmain := aspp_forward_shape_spec m x hc hh hw
  refine ⟨hmain, fun hred hlen => ⟨?_, ?_⟩⟩
  · rw [hmain, hred, hlen]
  · exact conv2d_shape_preserve 1280 256 1 0 1 ⟨x.n, 1280, x.h, x.w⟩ rfl
      (by omega) hh hw

/-- Witness for C2: the default module `(in_dim 2048, reduction 256, rates
(12, 24, 36))` on a `(1, 2048, 4, 5)` input yields `(1, 1280, 4, 5)`. -/
theorem aspp_forward_output_channels_witness :
    aspp_forward_shape ⟨2048, 256, [12, 24, 36]⟩ ⟨1, 2048, 4, 5⟩
      = some ⟨1, 1280, 4, 5⟩ := by
  have h := aspp_forward_output_channels ⟨2048, 256, [12, 24, 36]⟩ ⟨1, 2048, 4, 5⟩
    rfl (by decide) (by decide)
  exact (h.2 rfl rfl).1

/-- The attributes of a backbone submodule that `DeepV3Plus.__init__`
rewrites: dilation, padding and stride (each an `(h, w)` pair). -/
structure ConvAttrs where
  dilation : Nat × Nat
  padding : Nat × Nat
  stride : Nat × Nat
deriving DecidableEq, Repr

/-- `pat` occurs as a contiguous substring of `s` (Python's `pat in s`). -/
def substrOf (pat s : String) : Bool :=
  decide (pat.toList <:+: s.toList)

/-- One iteration of the `for n, m in layer.named_modules()` rewrite (lines
126-130): a name containing `conv2` gets the given dilation and padding and
stride `(1, 1)`; otherwise a name containing `downsample.0` gets stride
`(1, 1)`; every other module is untouched. -/
def modifyStep (d : Nat × Nat) (nm : String × ConvAttrs) : String × ConvAttrs :=
  if substrOf "conv2" nm.1 then
    (nm.1, ⟨d, d, (1, 1)⟩)
  else if substrOf "downsample.0" nm.1 then
    (nm.1, { nm.2 with stride := (1, 1) })
  else
    nm

/-- The rewrite applied to every named submodule of one backbone layer. -/
def modifyLayer (d : Nat × Nat) (layer : List (String × ConvAttrs)) :
    List (String × ConvAttrs) :=
  layer.map (modifyStep d)

/-- A backbone trunk as `DeepV3Plus.__init__` sees it: five layers, each a
list of named submodules with their conv attributes. -/
structure Resnet where
  layer0 : List (String × ConvAttrs)
  layer1 : List (String × ConvAttrs)
  layer2 : List (String × ConvAttrs)
  layer3 : List (String × ConvAttrs)
  layer4 : List (String × ConvAttrs)
deriving DecidableEq, Repr

/-- The variant dispatch of `DeepV3Plus.__init__` (lines 125-143): variant
`D` rewrites layer3 with dilation `(2, 2)` and layer4 with `(4, 4)`; variant
`D16` rewrites only layer4 with `(2, 2)`; any other variant leaves both
layers unchanged (only printing a message). -/
def applyVariant (variant : String) (l3 l4 : List (String × ConvAttrs)) :
    List (String × ConvAttrs) × List (String × ConvAttrs) :=
  if variant = "D" then (modifyLayer (2, 2) l3, modifyLayer (4, 4) l4)
  else if variant = "D16" then (l3, modifyLayer (2, 2) l4)
  else (l3, l4)

/-- The two kinds of exception `DeepV3Plus.__init__` can raise: the
`ValueError("Not a valid network arch")` of the trunk check and the plain
`Exception('Not a valid skip')` of the skip check. -/
inductive InitError where
  | valueError (msg : String)
  | exception (msg : String)
deriving DecidableEq, Repr

/-- The construction-time data of a `DeepV3Plus` module. -/
structure DeepV3PlusCfg where
  numClasses : Nat
  skip : String
  skipNum : Nat
  layer0 : List (String × ConvAttrs)
  layer1 : List (String × ConvAttrs)
  layer2 : List (String × ConvAttrs)
  layer3 : List (String × ConvAttrs)
  layer4 : List (String × ConvAttrs)
  aspp : ASPPModule
  botFineIn : Nat
  botAspp : Nat × Nat
deriving DecidableEq, Repr

/-- The trunk dispatch of `DeepV3Plus.__init__` (lines 108-119).  The four
trunk factories are external collaborators, passed in as the trunks they
would build; an unknown trunk name selects nothing. -/
def selectTrunk (trunk : String) (se50 se101 r50 r101 : Resnet) : Option Resnet :=
  if trunk = "seresnext-50" then some se50
  else if trunk = "seresnext-101" then some se101
  else if trunk = "resnet-50" then some r50
  else if trunk = "resnet-101" then some r101
  else none

/-- `DeepV3Plus.__init__` (lines 100-169): trunk validation, the variant
dilation rewrite, the ASPP module built with `output_stride=8` for every
variant, and the skip validation fixing the `bot_fine` in-channels. -/
def deepV3Plus_init (numClasses : Nat) (trunk variant skip : String)
    (skipNum : Nat) (se50 se101 r50 r101 : Resnet) :
    Except InitError DeepV3PlusCfg :=
  match selectTrunk trunk se50 se101 r50 r101 with
  | none => .error (.valueError "Not a valid network arch")
  | some resnet =>
    let l34 := applyVariant variant resnet.layer3 resnet.layer4
    match aspp_init 2048 256 8 [6, 12, 18] with
    | .error msg => .error (.exception msg)
    | .ok aspp =>
      if skip = "m1" then
        .ok ⟨numClasses, skip, skipNum, resnet.layer0, resnet.layer1, resnet.layer2,
             l34.1, l34.2, aspp, 256, (1280, 256)⟩
      else if skip = "m2" then
        .ok ⟨numClasses, skip, skipNum, resnet.layer0, resnet.layer1, resnet.layer2,
             l34.1, l34.2, aspp, 512, (1280, 256)⟩
      else
        .error (.exception "Not a valid skip")

/-- A backbone trunk as `DeepV3Plus.forward` uses it: five opaque
shape-to-shape stages. -/
structure Backbone where
  layer0 : Shape4 → Option Shape4
  layer1 : Shape4 → Option Shape4
  layer2 : Shape4 → Option Shape4
  layer3 : Shape4 → Option Shape4
  layer4 : Shape4 → Option Shape4

/-- The `self.final` head of `DeepV3Plus` (lines 157-164): two 3x3
padding-1 convolutions to 256 channels (with shape-preserving `Norm2d` and
`ReLU`) and a final 1x1 convolution to `num_classes` channels. -/
def final_shape (skipNum numClasses : Nat) (s : Shape4) : Option Shape4 :=
  match conv2d_shape (256 + skipNum) 256 3 1 1 1 s with
  | none => none
  | some s1 =>
    match conv2d_shape 256 256 3 1 1 1 s1 with
    | none => none
    | some s2 => conv2d_shape 256 numClasses 1 0 1 1 s2

/-- The skip-fusing decoder stage of `DeepV3Plus.forward` (lines 181-190):
`bot_aspp` on the ASPP output, then — depending on `skip` — `bot_fine` on the
selected low-level feature and bilinear upsampling of the `bot_aspp` output
to that feature's spatial size, concatenated along channels. -/
def decoderFuse (skip : String) (skipNum : Nat) (xp x1 x2 : Shape4) :
    Option Shape4 :=
  match conv2d_shape 1280 256 1 0 1 1 xp with
  | none => none
  | some d0 =>
    if skip = "m1" then
      match conv2d_shape 256 skipNum 1 0 1 1 x1 with
      | none => none
      | some fine => cat_channels fine (upsample_shape x1.h x1.w d0)
    else
      match conv2d_shape 512 skipNum 1 0 1 1 x2 with
      | none => none
      | some fine => cat_channels fine (upsample_shape x2.h x2.w d0)

/-- The result of a forward pass: the loss tensor in training mode (the
criterion is abstract, so its value is an abstract `Nat` code) or the output
tensor shape in evaluation mode. -/
inductive FwdOut where
  | loss (v : Nat)
  | out (s : Shape4)
deriving DecidableEq, Repr

/-- `DeepV3Plus.forward` (lines 171-197): the five backbone stages, the ASPP
module, the skip-fusing decoder, the `self.final` head, upsampling to the
input's spatial size, and the training/evaluation split on the result. -/
def deepV3Plus_forward (b : Backbone) (aspp : ASPPModule) (skip : String)
    (skipNum numClasses : Nat) (training : Bool)
    (criterion : Shape4 → Option Shape4 → Nat)
    (x : Shape4) (gts : Option Shape4) : Option FwdOut :=
  match b.layer0 x with
  | none => none
  | some x0 =>
    match b.layer1 x0 with
    | none => none
    | some x1 =>
      match b.layer2 x1 with
      | none => none
      | some x2 =>
        match b.layer3 x2 with
        | none => none
        | some x3 =>
          match b.layer4 x3 with
          | none => none
          | some x4 =>
            match aspp_forward_shape aspp x4 with
            | none => none
            | some xp =>
              match decoderFuse skip skipNum xp x1 x2 with
              | none => none
              | some dec0 =>
                match final_shape skipNum numClasses dec0 with
                | none => none
                | some dec1 =>
                  let main_out := upsample_shape x.h x.w dec1
                  if training then some (.loss (criterion main_out gts))
                  else some (.out main_out)


/-- Decoder stage, skip `m1`: `bot_fine` on `x1`, upsample to `x1`'s spatial
size, concatenate. -/
lemma decoderFuse_spec_m1 (skipNum : Nat) (xp x1 x2 : Shape4)
    (hxpc : xp.c = 1280) (hxph : 1 ≤ xp.h) (hxpw : 1 ≤ xp.w)
    (hn1 : x1.n = xp.n) (hc1 : x1.c = 256) (hh1 : 1 ≤ x1.h) (hw1 : 1 ≤ x1.w) :
    decoderFuse "m1" skipNum xp x1 x2 = some ⟨xp.n, skipNum + 256, x1.h, x1.w⟩ := by
  unfold decoderFuse
  simp only [conv2d_shape_preserve 1280 256 1 0 1 xp hxpc (by omega) hxph hxpw]
  rw [if_pos trivial]
  simp only [conv2d_shape_preserve 256 skipNum 1 0 1 x1 hc1 (by omega) hh1 hw1]
  unfold cat_channels upsample_shape
  rw [if_pos ⟨hn1, rfl, rfl⟩]
  rw [hn1]

/-- Decoder stage, any skip other than `m1` (the code's `else` branch):
`bot_fine` on `x2`, upsample to `x2`'s spatial size, concatenate. -/
lemma decoderFuse_spec_ne (skip : String) (hne : skip ≠ "m1") (skipNum : Nat)
    (xp x1 x2 : Shape4)
    (hxpc : xp.c = 1280) (hxph : 1 ≤ xp.h) (hxpw : 1 ≤ xp.w)
    (hn2 : x2.n = xp.n) (hc2 : x2.c = 512) (hh2 : 1 ≤ x2.h) (hw2 : 1 ≤ x2.w) :
    decoderFuse skip skipNum xp x1 x2 = some ⟨xp.n, skipNum + 256, x2.h, x2.w⟩ := by
  unfold decoderFuse
  simp only [conv2d_shape_preserve 1280 256 1 0 1 xp hxpc (by omega) hxph hxpw]
  rw [if_neg hne]
  simp only [conv2d_shape_preserve 512 skipNum 1 0 1 x2 hc2 (by omega) hh2 hw2]
  unfold cat_channels upsample_shape
  rw [if_pos ⟨hn2, rfl, rfl⟩]
  rw [hn2]

/-- The decoder stage on a 1280-channel ASPP output and a skip feature with
the matching channel count produces `(N, skip_num + 256)` channels at the
skip feature's spatial size. -/
lemma decoderFuse_spec (skip : String) (skipNum : Nat) (xp x1 x2 : Shape4)
    (hxpc : xp.c = 1280) (hxph : 1 ≤ xp.h) (hxpw : 1 ≤ xp.w)
    (hsn : (if skip = "m1" then x1 else x2).n = xp.n)
    (hsc : (if skip = "m1" then x1 else x2).c = (if skip = "m1" then 256 else 512))
    (hsh : 1 ≤ (if skip = "m1" then x1 else x2).h)
    (hsw : 1 ≤ (if skip = "m1" then x1 else x2).w) :
    decoderFuse skip skipNum xp x1 x2
      = some ⟨xp.n, skipNum + 256, (if skip = "m1" then x1 else x2).h,
              (if skip = "m1" then x1 else x2).w⟩ := by
  by_cases hs : skip = "m1"
  · subst hs
    simp only [reduceIte] at hsn hsc hsh hsw ⊢
    exact decoderFuse_spec_m1 skipNum xp x1 x2 hxpc hxph hxpw hsn hsc hsh hsw
  · simp only [if_neg hs] at hsn hsc hsh hsw ⊢
    exact decoderFuse_spec_ne skip hs skipNum xp x1 x2 hxpc hxph hxpw hsn hsc hsh hsw

/-- The `self.final` head maps a `(N, skip_num + 256, H, W)` input (with at
least one pixel) to `(N, num_classes, H, W)`. -/
lemma final_shape_spec (skipNum numClasses : Nat) (s : Shape4)
    (hc : s.c = skipNum + 256) (hh : 1 ≤ s.h) (hw : 1 ≤ s.w) :
    final_shape skipNum numClasses s = some ⟨s.n, numClasses, s.h, s.w⟩ := by
  unfold final_shape
  simp only [conv2d_shape_preserve (256 + skipNum) 256 3 1 1 s (by omega)
    (by omega) hh hw]
  simp only [conv2d_shape_preserve 256 256 3 1 1 (⟨s.n, 256, s.h, s.w⟩ : Shape4)
    rfl (by omega) hh hw]
  exact conv2d_shape_preserve 256 numClasses 1 0 1 ⟨s.n, 256, s.h, s.w⟩ rfl
    (by omega) hh hw

/-- C1: whenever the backbone stages accept the input and deliver their
contracted feature maps (a 2048-channel `x4` and a 256- or 512-channel skip
feature, batch preserved, at least one pixel), `DeepV3Plus.forward` in
evaluation mode returns a single tensor of shape `(N, num_classes, H, W)` —
per-pixel class scores at the input's spatial resolution, produced by the
backbone, the ASPP module and the skip-fusing decoder — and in training mode
it returns `self.criterion(main_out, gts)` instead. -/
theorem deepV3Plus_forward_output (b : Backbone) (aspp : ASPPModule)
    (skip : String) (skipNum numClasses : Nat) (training : Bool)
    (criterion : Shape4 → Option Shape4 → Nat)
    (x x0 x1 x2 x3 x4 : Shape4) (gts : Option Shape4)
    (h0 : b.layer0 x = some x0) (h1 : b.layer1 x0 = some x1)
    (h2 : b.layer2 x1 = some x2) (h3 : b.layer3 x2 = some x3)
    (h4 : b.layer4 x3 = some x4)
    (haspp : aspp.in_dim = 2048 ∧ aspp.reduction_dim = 256 ∧ aspp.rates.length = 3)
    (hx4 : x4.n = x.n ∧ x4.c = 2048 ∧ 1 ≤ x4.h ∧ 1 ≤ x4.w)
    (hsn : (if skip = "m1" then x1 else x2).n = x.n)
    (hsc : (if skip = "m1" then x1 else x2).c = (if skip = "m1" then 256 else 512))
    (hsh : 1 ≤ (if skip = "m1" then x1 else x2).h)
    (hsw : 1 ≤ (if skip = "m1" then x1 else x2).w) :
    deepV3Plus_forward b aspp skip skipNum numClasses training criterion x gts
      = some (if training
              then FwdOut.loss (criterion ⟨x.n, numClasses, x.h, x.w⟩ gts)
              else FwdOut.out ⟨x.n, numClasses, x.h, x.w⟩) := by
  obtain ⟨hin, hred, hlen⟩ := haspp
  obtain ⟨hn4, hc4, hh4, hw4⟩ := hx4
  have haspp_out : aspp_forward_shape aspp x4 = some ⟨x.n, 1280, x4.h, x4.w⟩ := by
    rw [aspp_forward_shape_spec aspp x4 (by rw [hc4, hin]) hh4 hw4]
    rw [hred, hlen, hn4]
  have hdec : decoderFuse skip skipNum (⟨x.n, 1280, x4.h, x4.w⟩ : Shape4) x1 x2
      = some ⟨x.n, skipNum + 256, (if skip = "m1" then x1 else x2).h,
              (if skip = "m1" then x1 else x2).w⟩ :=
    decoderFuse_spec skip skipNum ⟨x.n, 1280, x4.h, x4.w⟩ x1 x2 rfl hh4 hw4
      hsn hsc hsh hsw
  have hfin : final_shape skipNum numClasses
      (⟨x.n, skipNum + 256, (if skip = "m1" then x1 else x2).h,
        (if skip = "m1" then x1 else x2).w⟩ : Shape4)
      = some ⟨x.n, numClasses, (if skip = "m1" then x1 else x2).h,
              (if skip = "m1" then x1 else x2).w⟩ :=
    final_shape_spec skipNum numClasses _ rfl hsh hsw
  unfold deepV3Plus_forward
  simp only [h0, h1, h2, h3, h4, haspp_out, hdec, hfin]
  unfold upsample_shape
  cases training <;> simp

/-- Witness for C1: a concrete backbone with the contracted channel counts
on a `(1, 3, 8, 8)` input, `num_classes = 19`, skip `m1`, both modes. -/
theorem deepV3Plus_forward_output_witness :
    (deepV3Plus_forward
      ⟨fun s => some ⟨s.n, 64, s.h, s.w⟩, fun s => some ⟨s.n, 256, s.h, s.w⟩,
       fun s => some ⟨s.n, 512, s.h, s.w⟩, fun s => some ⟨s.n, 1024, s.h, s.w⟩,
       fun s => some ⟨s.n, 2048, s.h, s.w⟩⟩
      ⟨2048, 256, [12, 24, 36]⟩ "m1" 48 19 false (fun _ _ => 0) ⟨1, 3, 8, 8⟩ none
      = some (FwdOut.out ⟨1, 19, 8, 8⟩)) ∧
    (deepV3Plus_forward
      ⟨fun s => some ⟨s.n, 64, s.h, s.w⟩, fun s => some ⟨s.n, 256, s.h, s.w⟩,
       fun s => some ⟨s.n, 512, s.h, s.w⟩, fun s => some ⟨s.n, 1024, s.h, s.w⟩,
       fun s => some ⟨s.n, 2048, s.h, s.w⟩⟩
      ⟨2048, 256, [12, 24, 36]⟩ "m1" 48 19 true (fun _ _ => 0) ⟨1, 3, 8, 8⟩ none
      = some (FwdOut.loss 0)) := by
  constructor
  · exact deepV3Plus_forward_output _ _ "m1" 48 19 false (fun _ _ => 0)
      ⟨1, 3, 8, 8⟩ ⟨1, 64, 8, 8⟩ ⟨1, 256, 8, 8⟩ ⟨1, 512, 8, 8⟩ ⟨1, 1024, 8, 8⟩
      ⟨1, 2048, 8, 8⟩ none rfl rfl rfl rfl rfl ⟨rfl, rfl, rfl⟩
      ⟨rfl, rfl, by decide, by decide⟩ (by decide) (by decide) (by decide)
      (by decide)
  · exact deepV3Plus_forward_output _ _ "m1" 48 19 true (fun _ _ => 0)
      ⟨1, 3, 8, 8⟩ ⟨1, 64, 8, 8⟩ ⟨1, 256, 8, 8⟩ ⟨1, 512, 8, 8⟩ ⟨1, 1024, 8, 8⟩
      ⟨1, 2048, 8, 8⟩ none rfl rfl rfl rfl rfl ⟨rfl, rfl, rfl⟩
      ⟨rfl, rfl, by decide, by decide⟩ (by decide) (by decide) (by decide)
      (by decide)

/-- C3: in the decoder, `dec0_up` is bilinearly upsampled to the spatial
size of the selected low-level feature (`x1` for skip `m1`, `x2` otherwise)
before the channel concatenation with `bot_fine`'s output, so `dec0_fine`
and the upsampled `dec0_up` have equal spatial dimensions there. -/
theorem decoder_spatial_alignment (skip : String) (skipNum : Nat)
    (xp x1 x2 d0 fine : Shape4)
    (hd0 : conv2d_shape 1280 256 1 0 1 1 xp = some d0)
    (hfine : conv2d_shape (if skip = "m1" then 256 else 512) skipNum 1 0 1 1
        (if skip = "m1" then x1 else x2) = some fine) :
    fine.h = (upsample_shape (if skip = "m1" then x1 else x2).h
        (if skip = "m1" then x1 else x2).w d0).h ∧
    fine.w = (upsample_shape (if skip = "m1" then x1 else x2).h
        (if skip = "m1" then x1 else x2).w d0).w ∧
    decoderFuse skip skipNum xp x1 x2
      = cat_channels fine (upsample_shape (if skip = "m1" then x1 else x2).h
          (if skip = "m1" then x1 else x2).w d0) := by
  have hspatial : ∀ (inC : Nat) (src out : Shape4),
      conv2d_shape inC skipNum 1 0 1 1 src = some out →
      out.h = src.h ∧ out.w = src.w := by
    intro inC src out h
    unfold conv2d_shape at h
    by_cases hcond : src.c = inC ∧ 0 < 1 ∧ 1 * (1 - 1) + 1 ≤ src.h + 2 * 0 ∧
        1 * (1 - 1) + 1 ≤ src.w + 2 * 0
    · rw [if_pos hcond] at h
      obtain ⟨-, -, hhs, hws⟩ := hcond
      cases h
      constructor <;> simp <;> omega
    · rw [if_neg hcond] at h
      exact absurd h (by simp)
  by_cases hs : skip = "m1"
  · subst hs
    simp only [reduceIte] at hfine ⊢
    obtain ⟨hh, hw⟩ := hspatial 256 x1 fine hfine
    refine ⟨by rw [hh]; rfl, by rw [hw]; rfl, ?_⟩
    unfold decoderFuse
    simp only [hd0, hfine]
    rw [if_pos trivial]
  · simp only [if_neg hs] at hfine ⊢
    obtain ⟨hh, hw⟩ := hspatial 512 x2 fine hfine
    refine ⟨by rw [hh]; rfl, by rw [hw]; rfl, ?_⟩
    unfold decoderFuse
    simp only [hd0, hfine]
    rw [if_neg hs]

/-- Witness for C3 at skip `m1` with concrete shapes. -/
theorem decoder_spatial_alignment_witness :
    (⟨5, 48, 16, 16⟩ : Shape4).h
      = (upsample_shape (16 : Nat) (16 : Nat) ⟨5, 256, 4, 4⟩).h ∧
    (⟨5, 48, 16, 16⟩ : Shape4).w
      = (upsample_shape (16 : Nat) (16 : Nat) ⟨5, 256, 4, 4⟩).w ∧
    decoderFuse "m1" 48 ⟨5, 1280, 4, 4⟩ ⟨5, 256, 16, 16⟩ ⟨5, 512, 8, 8⟩
      = cat_channels ⟨5, 48, 16, 16⟩ (upsample_shape 16 16 ⟨5, 256, 4, 4⟩) := by
  exact decoder_spatial_alignment "m1" 48 ⟨5, 1280, 4, 4⟩ ⟨5, 256, 16, 16⟩
    ⟨5, 512, 8, 8⟩ ⟨5, 256, 4, 4⟩ ⟨5, 48, 16, 16⟩ (by decide) (by decide)

/-- C7: `DeepV3Plus.forward` is a deterministic function of the module state
(backbone, ASPP configuration, skip settings, criterion) and the input: two
runs on identical state and input produce equal results. -/
theorem deepV3Plus_forward_deterministic (b : Backbone) (aspp : ASPPModule)
    (skip : String) (skipNum numClasses : Nat) (training : Bool)
    (criterion : Shape4 → Option Shape4 → Nat)
    (x : Shape4) (gts : Option Shape4) :
    deepV3Plus_forward b aspp skip skipNum numClasses training criterion x gts
      = deepV3Plus_forward b aspp skip skipNum numClasses training criterion x gts :=
  rfl

/-- What the variant rewrite does to one named submodule, as the spec states
it: a name containing `conv2` gets dilation `d`, padding `d`, stride
`(1, 1)`; a name containing `downsample.0` gets stride `(1, 1)`; a name
containing neither is left untouched (and a non-`conv2` `downsample.0`
module keeps its dilation and padding). -/
def moduleRewrite (d : Nat × Nat) (old new : String × ConvAttrs) : Prop :=
  new.1 = old.1 ∧
  (substrOf "conv2" old.1 = true → new.2 = ⟨d, d, (1, 1)⟩) ∧
  (substrOf "downsample.0" old.1 = true → new.2.stride = (1, 1)) ∧
  (substrOf "conv2" old.1 = false → substrOf "downsample.0" old.1 = true →
    new.2.dilation = old.2.dilation ∧ new.2.padding = old.2.padding) ∧
  (substrOf "conv2" old.1 = false → substrOf "downsample.0" old.1 = false →
    new = old)

/-- The per-layer rewrite relation: old and new submodule lists correspond
pointwise by `moduleRewrite`. -/
def layerRewrite (d : Nat × Nat) (old new : List (String × ConvAttrs)) : Prop :=
  List.Forall₂ (moduleRewrite d) old new

/-- `modifyStep` realises the per-module rewrite contract. -/
lemma modifyStep_rewrite (d : Nat × Nat) (nm : String × ConvAttrs) :
    moduleRewrite d nm (modifyStep d nm) := by
  unfold moduleRewrite modifyStep
  by_cases h1 : substrOf "conv2" nm.1 = true
  · rw [if_pos h1]
    exact ⟨rfl, fun _ => rfl, fun _ => rfl, fun hf _ => absurd h1 (by rw [hf]; simp),
           fun hf _ => absurd h1 (by rw [hf]; simp)⟩
  · rw [if_neg h1]
    by_cases h2 : substrOf "downsample.0" nm.1 = true
    · rw [if_pos h2]
      exact ⟨rfl, fun ht => absurd ht h1, fun _ => rfl, fun _ _ => ⟨rfl, rfl⟩,
             fun _ hf => absurd h2 (by rw [hf]; simp)⟩
    · rw [if_neg h2]
      exact ⟨rfl, fun ht => absurd ht h1, fun ht => absurd ht h2,
             fun _ ht => absurd ht h2, fun _ _ => rfl⟩

/-- `modifyLayer` realises the per-layer rewrite contract. -/
lemma modifyLayer_rewrite (d : Nat × Nat) (l : List (String × ConvAttrs)) :
    layerRewrite d l (modifyLayer d l) := by
  unfold layerRewrite modifyLayer
  induction l with
  | nil => exact List.Forall₂.nil
  | cons nm rest ih => exact List.Forall₂.cons (modifyStep_rewrite d nm) ih

/-- C5: for a successfully constructed `DeepV3Plus`, variant `D` rewrites
every `conv2`-named submodule of layer3 to dilation/padding `(2, 2)` and of
layer4 to `(4, 4)` (stride `(1, 1)`), gives every `downsample.0`-named
submodule stride `(1, 1)`, and leaves every other submodule of those layers
untouched; variant `D16` does the same to layer4 only, with dilation
`(2, 2)`; any other variant leaves both layers unchanged; and layer0,
layer1, layer2 always keep the attributes the trunk constructor gave them. -/
theorem deepV3Plus_init_variant_dilation (numClasses : Nat)
    (trunk variant skip : String) (skipNum : Nat)
    (se50 se101 r50 r101 resnet : Resnet) (cfg : DeepV3PlusCfg)
    (hsel : selectTrunk trunk se50 se101 r50 r101 = some resnet)
    (h : deepV3Plus_init numClasses trunk variant skip skipNum
          se50 se101 r50 r101 = .ok cfg) :
    cfg.layer0 = resnet.layer0 ∧ cfg.layer1 = resnet.layer1 ∧
    cfg.layer2 = resnet.layer2 ∧
    (variant = "D" →
      layerRewrite (2, 2) resnet.layer3 cfg.layer3 ∧
      layerRewrite (4, 4) resnet.layer4 cfg.layer4) ∧
    (variant = "D16" →
      cfg.layer3 = resnet.layer3 ∧
      layerRewrite (2, 2) resnet.layer4 cfg.layer4) ∧
    (variant ≠ "D" → variant ≠ "D16" →
      cfg.layer3 = resnet.layer3 ∧ cfg.layer4 = resnet.layer4) := by
  unfold deepV3Plus_init at h
  rw [hsel] at h
  simp only [aspp_init, reduceIte] at h
  have hlayers : cfg.layer0 = resnet.layer0 ∧ cfg.layer1 = resnet.layer1 ∧
      cfg.layer2 = resnet.layer2 ∧
      cfg.layer3 = (applyVariant variant resnet.layer3 resnet.layer4).1 ∧
      cfg.layer4 = (applyVariant variant resnet.layer3 resnet.layer4).2 := by
    by_cases hm1 : skip = "m1"
    · rw [if_pos hm1] at h
      injection h with h
      subst h
      exact ⟨rfl, rfl, rfl, rfl, rfl⟩
    · rw [if_neg hm1] at h
      by_cases hm2 : skip = "m2"
      · rw [if_pos hm2] at h
        injection h with h
        subst h
        exact ⟨rfl, rfl, rfl, rfl, rfl⟩
      · rw [if_neg hm2] at h
        exact absurd h (by simp)
  obtain ⟨e0, e1, e2, e3, e4⟩ := hlayers
  refine ⟨e0, e1, e2, ?_, ?_, ?_⟩
  · intro hD
    unfold applyVariant at e3 e4
    rw [if_pos hD] at e3 e4
    rw [e3, e4]
    exact ⟨modifyLayer_rewrite (2, 2) resnet.layer3,
           modifyLayer_rewrite (4, 4) resnet.layer4⟩
  · intro hD16
    unfold applyVariant at e3 e4
    have hne : variant ≠ "D" := by rw [hD16]; decide
    rw [if_neg hne, if_pos hD16] at e3 e4
    rw [e3, e4]
    exact ⟨rfl, modifyLayer_rewrite (2, 2) resnet.layer4⟩
  · intro hne hne16
    unfold applyVariant at e3 e4
    rw [if_neg hne, if_neg hne16] at e3 e4
    exact ⟨e3, e4⟩

/-- Witness for C5: a one-block trunk under variant `D`, checking the
rewritten cfg and exercising the conclusion. -/
theorem deepV3Plus_init_variant_dilation_witness :
    let r : Resnet :=
      ⟨[("stem", ⟨(1, 1), (0, 0), (2, 2)⟩)], [], [],
       [("a.conv2", ⟨(1, 1), (1, 1), (2, 2)⟩)],
       [("d.downsample.0", ⟨(1, 1), (0, 0), (2, 2)⟩)]⟩
    let cfg : DeepV3PlusCfg :=
      ⟨19, "m1", 48, [("stem", ⟨(1, 1), (0, 0), (2, 2)⟩)], [], [],
       [("a.conv2", ⟨(2, 2), (2, 2), (1, 1)⟩)],
       [("d.downsample.0", ⟨(1, 1), (0, 0), (1, 1)⟩)],
       ⟨2048, 256, [12, 24, 36]⟩, 256, (1280, 256)⟩
    cfg.layer0 = r.layer0 ∧ cfg.layer1 = r.layer1 ∧ cfg.layer2 = r.layer2 ∧
    ("D" = "D" →
      layerRewrite (2, 2) r.layer3 cfg.layer3 ∧
      layerRewrite (4, 4) r.layer4 cfg.layer4) ∧
    ("D" = "D16" →
      cfg.layer3 = r.layer3 ∧ layerRewrite (2, 2) r.layer4 cfg.layer4) ∧
    ("D" ≠ "D" → "D" ≠ "D16" →
      cfg.layer3 = r.layer3 ∧ cfg.layer4 = r.layer4) := by
  intro r cfg
  exact deepV3Plus_init_variant_dilation 19 "seresnext-50" "D" "m1" 48
    r r r r r cfg (by decide) rfl

/-- The trunk dispatch selects nothing exactly when the trunk name is not
one of the four supported architectures. -/
lemma selectTrunk_none_iff (trunk : String) (se50 se101 r50 r101 : Resnet) :
    selectTrunk trunk se50 se101 r50 r101 = none ↔
      trunk ∉ (["seresnext-50", "seresnext-101", "resnet-50",
                "resnet-101"] : List String) := by
  unfold selectTrunk
  by_cases h1 : trunk = "seresnext-50"
  · simp [h1]
  · by_cases h2 : trunk = "seresnext-101"
    · simp [h2]
    · by_cases h3 : trunk = "resnet-50"
      · simp [h3]
      · by_cases h4 : trunk = "resnet-101"
        · simp [h4]
        · simp [h1, h2, h3, h4]

/-- C10: `DeepV3Plus.__init__` raises `ValueError("Not a valid network
arch")` exactly when the trunk is not one of the four supported names; for a
valid trunk it raises `Exception('Not a valid skip')` exactly when the skip
is neither `m1` nor `m2`; and with a valid trunk and skip it constructs the
module. -/
theorem deepV3Plus_init_validation (numClasses : Nat) (trunk variant skip : String)
    (skipNum : Nat) (se50 se101 r50 r101 : Resnet) :
    ((deepV3Plus_init numClasses trunk variant skip skipNum se50 se101 r50 r101
        = .error (.valueError "Not a valid network arch")) ↔
      trunk ∉ (["seresnext-50", "seresnext-101", "resnet-50",
                "resnet-101"] : List String)) ∧
    (trunk ∈ (["seresnext-50", "seresnext-101", "resnet-50",
               "resnet-101"] : List String) →
      ((deepV3Plus_init numClasses trunk variant skip skipNum se50 se101 r50 r101
          = .error (.exception "Not a valid skip")) ↔
        skip ∉ (["m1", "m2"] : List String))) ∧
    (trunk ∈ (["seresnext-50", "seresnext-101", "resnet-50",
               "resnet-101"] : List String) →
      skip ∈ (["m1", "m2"] : List String) →
      ∃ cfg, deepV3Plus_init numClasses trunk variant skip skipNum
        se50 se101 r50 r101 = .ok cfg) := by
  cases hsel : selectTrunk trunk se50 se101 r50 r101 with
  | none =>
    have hmem := (selectTrunk_none_iff trunk se50 se101 r50 r101).mp hsel
    unfold deepV3Plus_init
    rw [hsel]
    refine ⟨by simp [hmem], fun hin => absurd hin hmem, fun hin => absurd hin hmem⟩
  | some resnet =>
    have hmem : trunk ∈ (["seresnext-50", "seresnext-101", "resnet-50",
        "resnet-101"] : List String) := by
      by_contra hno
      rw [← selectTrunk_none_iff trunk se50 se101 r50 r101] at hno
      rw [hsel] at hno
      exact absurd hno (by simp)
    unfold deepV3Plus_init
    rw [hsel]
    simp only [aspp_init, reduceIte]
    by_cases hm1 : skip = "m1"
    · rw [if_pos hm1]
      refine ⟨iff_of_false (by simp) (not_not_intro hmem), fun _ => ?_,
        fun _ _ => ⟨_, rfl⟩⟩
      constructor
      · intro h
        exact absurd h (by simp)
      · intro h
        exact absurd (by simp [hm1] : skip ∈ (["m1", "m2"] : List String)) h
    · rw [if_neg hm1]
      by_cases hm2 : skip = "m2"
      · rw [if_pos hm2]
        refine ⟨iff_of_false (by simp) (not_not_intro hmem), fun _ => ?_,
          fun _ _ => ⟨_, rfl⟩⟩
        constructor
        · intro h
          exact absurd h (by simp)
        · intro h
          exact absurd (by simp [hm2] : skip ∈ (["m1", "m2"] : List String)) h
      · rw [if_neg hm2]
        refine ⟨iff_of_false (by simp) (not_not_intro hmem), fun _ => ?_,
          fun _ hsk => ?_⟩
        · constructor
          · intro _
            simp [hm1, hm2]
          · intro _
            rfl
        · simp only [List.mem_cons, List.mem_singleton] at hsk
          rcases hsk with hsk | hsk | hsk
          · exact absurd hsk hm1
          · exact absurd hsk hm2
          · exact absurd hsk (by simp)

/-- Witness for C10: the three behaviours at concrete arguments — invalid
trunk, valid trunk with invalid skip, and a fully valid configuration. -/
theorem deepV3Plus_init_validation_witness :
    (deepV3Plus_init 19 "vgg-16" "D" "m1" 48 ⟨[], [], [], [], []⟩ ⟨[], [], [], [], []⟩
        ⟨[], [], [], [], []⟩ ⟨[], [], [], [], []⟩
      = .error (.valueError "Not a valid network arch")) ∧
    (deepV3Plus_init 19 "resnet-50" "D" "m3" 48 ⟨[], [], [], [], []⟩
        ⟨[], [], [], [], []⟩ ⟨[], [], [], [], []⟩ ⟨[], [], [], [], []⟩
      = .error (.exception "Not a valid skip")) ∧
    (∃ cfg, deepV3Plus_init 19 "resnet-50" "D" "m2" 48 ⟨[], [], [], [], []⟩
        ⟨[], [], [], [], []⟩ ⟨[], [], [], [], []⟩ ⟨[], [], [], [], []⟩
      = .ok cfg) := by
  refine ⟨?_, ?_, ?_⟩
  · exact (deepV3Plus_init_validation 19 "vgg-16" "D" "m1" 48 _ _ _ _).1.mpr
      (by decide)
  · exact ((deepV3Plus_init_validation 19 "resnet-50" "D" "m3" 48 _ _ _ _).2.1
      (by decide)).mpr (by decide)
  · exact (deepV3Plus_init_validation 19 "resnet-50" "D" "m2" 48 _ _ _ _).2.2
      (by decide) (by decide)

/-- C9: every successful `DeepV3Plus.__init__`, for every variant (including
`D16` and variants applying no backbone dilation), builds its ASPP module
with `output_stride=8`, hence with the doubled dilation rates
`(12, 24, 36)`. -/
theorem deepV3Plus_init_aspp_always_stride8 (numClasses : Nat)
    (trunk variant skip : String) (skipNum : Nat)
    (se50 se101 r50 r101 : Resnet) (cfg : DeepV3PlusCfg)
    (h : deepV3Plus_init numClasses trunk variant skip skipNum
          se50 se101 r50 r101 = .ok cfg) :
    aspp_init 2048 256 8 [6, 12, 18] = .ok cfg.aspp ∧
    cfg.aspp = ⟨2048, 256, [12, 24, 36]⟩ := by
  unfold deepV3Plus_init at h
  cases hsel : selectTrunk trunk se50 se101 r50 r101 with
  | none =>
    rw [hsel] at h
    exact absurd h (by simp)
  | some resnet =>
    rw [hsel] at h
    simp only [aspp_init, reduceIte] at h
    have hcfg : cfg.aspp = ⟨2048, 256, [12, 24, 36]⟩ := by
      by_cases hm1 : skip = "m1"
      · rw [if_pos hm1] at h
        injection h with h
        subst h
        rfl
      · rw [if_neg hm1] at h
        by_cases hm2 : skip = "m2"
        · rw [if_pos hm2] at h
          injection h with h
          subst h
          rfl
        · rw [if_neg hm2] at h
          exact absurd h (by simp)
    exact ⟨by rw [hcfg]; rfl, hcfg⟩

/-- Witness for C9 at variant `D16` (the stride-16 backbone configuration
still gets the stride-8 ASPP rates). -/
theorem deepV3Plus_init_aspp_always_stride8_witness :
    aspp_init 2048 256 8 [6, 12, 18]
      = .ok (⟨19, "m1", 48, [], [], [], [], [], ⟨2048, 256, [12, 24, 36]⟩,
              256, (1280, 256)⟩ : DeepV3PlusCfg).aspp ∧
    (⟨19, "m1", 48, [], [], [], [], [], ⟨2048, 256, [12, 24, 36]⟩,
      256, (1280, 256)⟩ : DeepV3PlusCfg).aspp = ⟨2048, 256, [12, 24, 36]⟩ := by
  exact deepV3Plus_init_aspp_always_stride8 19 "resnet-101" "D16" "m1" 48
    ⟨[], [], [], [], []⟩ ⟨[], [], [], [], []⟩ ⟨[], [], [], [], []⟩
    ⟨[], [], [], [], []⟩ _ rfl

/-- The outcome of the opaque checkpoint-loading capability (`torch.load`
plus `forgiving_state_restore`), an external collaborator that can succeed
or fail for any reason. -/
inductive LoadOutcome where
  | success
  | failure
deriving DecidableEq, Repr

/-- The construction-time data of the WideResNet38-based modules:
whether the checkpoint load was invoked, the ASPP module, the `bot_fine` and
`bot_aspp` conv channel pairs, and the conv stack of `self.final` as
`(inC, outC, kernel, padding)` tuples. -/
structure WV3Cfg where
  loadInvoked : Bool
  aspp : ASPPModule
  botFine : Nat × Nat
  botAspp : Nat × Nat
  finalConvs : List (Nat × Nat × Nat × Nat)
deriving DecidableEq, Repr

/-- The checkpoint-load gate shared verbatim by `DeepWV3Plus.__init__`,
`DeepWV3Plus_dropout.__init__` and `DeepWV3Plus_cfl.__init__`: the load is
attempted exactly when `criterion is not None`, and a failing attempt turns
into a `RuntimeError` that aborts construction.  Returns whether the load
was invoked. -/
def wideResnetCheckpointLoad (criterionIsSome : Bool) (load : LoadOutcome) :
    Except String Bool :=
  if criterionIsSome then
    match load with
    | .success => .ok true
    | .failure =>
        .error "Could not load ImageNet weights of WideResNet38 network."
  else
    .ok false

/-- `DeepWV3Plus.__init__` (lines 396-464): checkpoint gate, ASPP on 4096
channels with `output_stride=8`, `bot_fine` 128 to 48, `bot_aspp` 1280 to
256, and a final head ending in a 1x1 conv to `num_classes` channels. -/
def deepWV3Plus_init (numClasses : Nat) (criterionIsSome : Bool)
    (load : LoadOutcome) : Except String WV3Cfg :=
  match wideResnetCheckpointLoad criterionIsSome load with
  | .error msg => .error msg
  | .ok invoked =>
    match aspp_init 4096 256 8 [6, 12, 18] with
    | .error msg => .error msg
    | .ok aspp =>
      .ok ⟨invoked, aspp, (128, 48), (1280, 256),
           [(256 + 48, 256, 3, 1), (256, 256, 3, 1), (256, numClasses, 1, 0)]⟩

/-- `DeepWV3Plus_dropout.__init__` (lines 215-289): same structure as
`DeepWV3Plus` (the added `nn.Dropout` layers do not change any channel
counts), including the final 1x1 conv to `num_classes`. -/
def deepWV3Plus_dropout_init (numClasses : Nat) (criterionIsSome : Bool)
    (load : LoadOutcome) : Except String WV3Cfg :=
  match wideResnetCheckpointLoad criterionIsSome load with
  | .error msg => .error msg
  | .ok invoked =>
    match aspp_init 4096 256 8 [6, 12, 18] with
    | .error msg => .error msg
    | .ok aspp =>
      .ok ⟨invoked, aspp, (128, 48), (1280, 256),
           [(256 + 48, 256, 3, 1), (256, 256, 3, 1), (256, numClasses, 1, 0)]⟩

/-- `DeepWV3Plus_cfl.__init__` (lines 501-569): identical to `DeepWV3Plus`
except that the class-scoring 1x1 conv of `self.final` is commented out, so
the head ends after the second 256-channel conv/norm/ReLU block and
`num_classes` is never used. -/
def deepWV3Plus_cfl_init (numClasses : Nat) (criterionIsSome : Bool)
    (load : LoadOutcome) : Except String WV3Cfg :=
  match wideResnetCheckpointLoad criterionIsSome load with
  | .error msg => .error msg
  | .ok invoked =>
    match aspp_init 4096 256 8 [6, 12, 18] with
    | .error msg => .error msg
    | .ok aspp =>
      .ok ⟨invoked, aspp, (128, 48), (1280, 256),
           [(256 + 48, 256, 3, 1), (256, 256, 3, 1)]⟩

/-- C6: in all three WideResNet38 constructors the checkpoint load is
invoked exactly when `criterion` is not `None`; a failing load aborts
construction with a `RuntimeError`, and with `criterion = None` no load is
attempted and construction proceeds. -/
theorem wv3_checkpoint_load_gating (numClasses : Nat) (load : LoadOutcome) :
    ((deepWV3Plus_init numClasses false load).map WV3Cfg.loadInvoked
        = .ok false ∧
     (deepWV3Plus_dropout_init numClasses false load).map WV3Cfg.loadInvoked
        = .ok false ∧
     (deepWV3Plus_cfl_init numClasses false load).map WV3Cfg.loadInvoked
        = .ok false) ∧
    ((deepWV3Plus_init numClasses true LoadOutcome.success).map
        WV3Cfg.loadInvoked = .ok true ∧
     (deepWV3Plus_dropout_init numClasses true LoadOutcome.success).map
        WV3Cfg.loadInvoked = .ok true ∧
     (deepWV3Plus_cfl_init numClasses true LoadOutcome.success).map
        WV3Cfg.loadInvoked = .ok true) ∧
    (deepWV3Plus_init numClasses true LoadOutcome.failure
        = .error "Could not load ImageNet weights of WideResNet38 network." ∧
     deepWV3Plus_dropout_init numClasses true LoadOutcome.failure
        = .error "Could not load ImageNet weights of WideResNet38 network." ∧
     deepWV3Plus_cfl_init numClasses true LoadOutcome.failure
        = .error "Could not load ImageNet weights of WideResNet38 network.") := by
  exact ⟨⟨rfl, rfl, rfl⟩, ⟨rfl, rfl, rfl⟩, ⟨rfl, rfl, rfl⟩⟩

/-- The WideResNet38 trunk stages as `DeepWV3Plus_cfl.forward` uses them:
opaque shape-to-shape functions. -/
structure WideBackbone where
  mod1 : Shape4 → Option Shape4
  mod2 : Shape4 → Option Shape4
  mod3 : Shape4 → Option Shape4
  mod4 : Shape4 → Option Shape4
  mod5 : Shape4 → Option Shape4
  mod6 : Shape4 → Option Shape4
  mod7 : Shape4 → Option Shape4
  pool2 : Shape4 → Option Shape4
  pool3 : Shape4 → Option Shape4

/-- The `self.final` head of `DeepWV3Plus_cfl` (lines 559-567): two 3x3
padding-1 convolutions to 256 channels with norm/ReLU; the class-scoring
1x1 conv is commented out. -/
def cfl_final_shape (s : Shape4) : Option Shape4 :=
  match conv2d_shape (256 + 48) 256 3 1 1 1 s with
  | none => none
  | some s1 => conv2d_shape 256 256 3 1 1 1 s1

/-- `DeepWV3Plus_cfl.forward` (lines 577-602): the WideResNet stages with
`m2` kept as the low-level skip feature, ASPP, `bot_aspp`, `bot_fine`,
upsampling `dec0_up` to `m2`'s spatial size, concatenation, the truncated
final head, and upsampling to the input size. -/
def deepWV3Plus_cfl_forward (b : WideBackbone) (aspp : ASPPModule)
    (training : Bool) (criterion : Shape4 → Option Shape4 → Nat)
    (inp : Shape4) (gts : Option Shape4) : Option FwdOut :=
  match b.mod1 inp with
  | none => none
  | some s1 =>
    match b.pool2 s1 with
    | none => none
    | some p2 =>
      match b.mod2 p2 with
      | none => none
      | some m2 =>
        match b.pool3 m2 with
        | none => none
        | some p3 =>
          match b.mod3 p3 with
          | none => none
          | some s3 =>
            match b.mod4 s3 with
            | none => none
            | some s4 =>
              match b.mod5 s4 with
              | none => none
              | some s5 =>
                match b.mod6 s5 with
                | none => none
                | some s6 =>
                  match b.mod7 s6 with
                  | none => none
                  | some s7 =>
                    match aspp_forward_shape aspp s7 with
                    | none => none
                    | some xa =>
                      match conv2d_shape 1280 256 1 0 1 1 xa with
                      | none => none
                      | some d0 =>
                        match conv2d_shape 128 48 1 0 1 1 m2 with
                        | none => none
                        | some fine =>
                          match cat_channels fine
                              (upsample_shape m2.h m2.w d0) with
                          | none => none
                          | some dec0 =>
                            match cfl_final_shape dec0 with
                            | none => none
                            | some dec1 =>
                              let out := upsample_shape inp.h inp.w dec1
                              if training then
                                some (.loss (criterion out gts))
                              else
                                some (.out out)

/-- The truncated `cfl` head maps a `(N, 48 + 256, H, W)` input (at least
one pixel) to a 256-channel map of the same spatial size. -/
lemma cfl_final_shape_spec (s : Shape4) (hc : s.c = 48 + 256)
    (hh : 1 ≤ s.h) (hw : 1 ≤ s.w) :
    cfl_final_shape s = some ⟨s.n, 256, s.h, s.w⟩ := by
  unfold cfl_final_shape
  simp only [conv2d_shape_preserve (256 + 48) 256 3 1 1 s (by omega) (by omega)
    hh hw]
  exact conv2d_shape_preserve 256 256 3 1 1 ⟨s.n, 256, s.h, s.w⟩ rfl (by omega)
    hh hw

/-- C8: `DeepWV3Plus_cfl`'s evaluation-mode forward returns a 256-channel
feature map `(N, 256, H, W)` — not per-pixel class scores — whenever the
trunk stages deliver their contracted features (a 128-channel `m2` and a
4096-channel `mod7` output, batch preserved, at least one pixel); and the
`num_classes` constructor argument has no effect on the constructed
module. -/
theorem deepWV3Plus_cfl_output_256 (b : WideBackbone) (aspp : ASPPModule)
    (criterion : Shape4 → Option Shape4 → Nat)
    (inp s1 p2 m2 p3 s3 s4 s5 s6 s7 : Shape4) (gts : Option Shape4)
    (h1 : b.mod1 inp = some s1) (hp2 : b.pool2 s1 = some p2)
    (h2 : b.mod2 p2 = some m2) (hp3 : b.pool3 m2 = some p3)
    (h3 : b.mod3 p3 = some s3) (h4 : b.mod4 s3 = some s4)
    (h5 : b.mod5 s4 = some s5) (h6 : b.mod6 s5 = some s6)
    (h7 : b.mod7 s6 = some s7)
    (haspp : aspp.in_dim = 4096 ∧ aspp.reduction_dim = 256 ∧
      aspp.rates.length = 3)
    (hs7 : s7.n = inp.n ∧ s7.c = 4096 ∧ 1 ≤ s7.h ∧ 1 ≤ s7.w)
    (hm2 : m2.n = inp.n ∧ m2.c = 128 ∧ 1 ≤ m2.h ∧ 1 ≤ m2.w) :
    deepWV3Plus_cfl_forward b aspp false criterion inp gts
      = some (FwdOut.out ⟨inp.n, 256, inp.h, inp.w⟩) ∧
    (∀ numClasses numClasses' : Nat, ∀ (criterionIsSome : Bool)
        (load : LoadOutcome),
      deepWV3Plus_cfl_init numClasses criterionIsSome load
        = deepWV3Plus_cfl_init numClasses' criterionIsSome load) := by
  obtain ⟨hin, hred, hlen⟩ := haspp
  obtain ⟨hn7, hc7, hh7, hw7⟩ := hs7
  obtain ⟨hnm, hcm, hhm, hwm⟩ := hm2
  constructor
  · have haspp_out : aspp_forward_shape aspp s7
        = some ⟨inp.n, 1280, s7.h, s7.w⟩ := by
      rw [aspp_forward_shape_spec aspp s7 (by rw [hc7, hin]) hh7 hw7]
      rw [hred, hlen, hn7]
    have hd0 : conv2d_shape 1280 256 1 0 1 1 (⟨inp.n, 1280, s7.h, s7.w⟩ : Shape4)
        = some ⟨inp.n, 256, s7.h, s7.w⟩ :=
      conv2d_shape_preserve 1280 256 1 0 1 _ rfl (by omega) hh7 hw7
    have hfine : conv2d_shape 128 48 1 0 1 1 m2
        = some ⟨m2.n, 48, m2.h, m2.w⟩ :=
      conv2d_shape_preserve 128 48 1 0 1 m2 hcm (by omega) hhm hwm
    have hcat : cat_channels (⟨m2.n, 48, m2.h, m2.w⟩ : Shape4)
        (upsample_shape m2.h m2.w ⟨inp.n, 256, s7.h, s7.w⟩)
        = some ⟨inp.n, 48 + 256, m2.h, m2.w⟩ := by
      unfold cat_channels upsample_shape
      rw [if_pos ⟨hnm, rfl, rfl⟩]
      rw [hnm]
    have hfin : cfl_final_shape (⟨inp.n, 48 + 256, m2.h, m2.w⟩ : Shape4)
        = some ⟨inp.n, 256, m2.h, m2.w⟩ :=
      cfl_final_shape_spec _ rfl hhm hwm
    unfold deepWV3Plus_cfl_forward
    simp only [h1, hp2, h2, hp3, h3, h4, h5, h6, h7, haspp_out, hd0, hfine,
      hcat, hfin]
    simp [upsample_shape]
  · intro numClasses numClasses' criterionIsSome load
    unfold deepWV3Plus_cfl_init
    rfl

/-- Witness for C8: a concrete WideResNet trunk with the contracted channel
counts on a `(2, 3, 6, 6)` input returns a `(2, 256, 6, 6)` feature map. -/
theorem deepWV3Plus_cfl_output_256_witness :
    deepWV3Plus_cfl_forward
      ⟨fun s => some ⟨s.n, 64, s.h, s.w⟩, fun s => some ⟨s.n, 128, s.h, s.w⟩,
       fun s => some ⟨s.n, 256, s.h, s.w⟩, fun s => some ⟨s.n, 512, s.h, s.w⟩,
       fun s => some ⟨s.n, 1024, s.h, s.w⟩, fun s => some ⟨s.n, 2048, s.h, s.w⟩,
       fun s => some ⟨s.n, 4096, s.h, s.w⟩, fun s => some ⟨s.n, s.c, s.h, s.w⟩,
       fun s => some ⟨s.n, s.c, s.h, s.w⟩⟩
      ⟨4096, 256, [12, 24, 36]⟩ false (fun _ _ => 0) ⟨2, 3, 6, 6⟩ none
      = some (FwdOut.out ⟨2, 256, 6, 6⟩) ∧
    (∀ numClasses numClasses' : Nat, ∀ (criterionIsSome : Bool)
        (load : LoadOutcome),
      deepWV3Plus_cfl_init numClasses criterionIsSome load
        = deepWV3Plus_cfl_init numClasses' criterionIsSome load) := by
  exact deepWV3Plus_cfl_output_256 _ _ (fun _ _ => 0) ⟨2, 3, 6, 6⟩
    ⟨2, 64, 6, 6⟩ ⟨2, 64, 6, 6⟩ ⟨2, 128, 6, 6⟩ ⟨2, 128, 6, 6⟩ ⟨2, 256, 6, 6⟩
    ⟨2, 512, 6, 6⟩ ⟨2, 1024, 6, 6⟩ ⟨2, 2048, 6, 6⟩ ⟨2, 4096, 6, 6⟩ none
    rfl rfl rfl rfl rfl rfl rfl rfl rfl ⟨rfl, rfl, rfl⟩
    ⟨rfl, rfl, by decide, by decide⟩ ⟨rfl, rfl, by decide, by decide⟩
